import Mathlib

/-!
Shallow embedding of the comment subsystem of the Pendor social-feed
repository: the `useComments` hook (fetchComments, createComment,
likeComment), the SQL trigger functions maintaining the denormalized
counters (`update_comment_likes_count`, `update_post_comments_count`),
and the blocked-author gate of the `PredictionCard` component.

Conventions of the embedding:
  * database string/UUID columns are `String`, nullable columns are
    `Option String`; `created_at` timestamps are `Nat` (only their order
    matters);
  * a JS truthiness test on a `string | null` value is `optStrTruthy`;
  * asynchronous store calls are embedded by passing their outcome in as
    a parameter (an `Except` for the comments query, `Bool` failure flags
    for mutations) and recording each issued store operation in a
    `StoreOp` list, so that "no store call was made" is expressible;
  * `toast.*` calls are collected in a `Toast` list and `console.error`
    calls in a log list;
  * the React `comments` state (the rendered tree) and the `loading`
    flag form the `HookState`; mutating actions that end in
    `await fetchComments()` take the refetched tree as a parameter and
    install it only on their success path.
-/

/-- Embedding of JS `String.prototype.trim()`: strip leading and trailing
whitespace characters. -/
def jsTrim (s : String) : String :=
  String.mk (((s.data.dropWhile Char.isWhitespace).reverse.dropWhile
    Char.isWhitespace).reverse)

/-- Truthiness of a JS `string | null` value: `null` and the empty string
are falsy, every other string is truthy.  Used for `!comment.parent_id`. -/
def optStrTruthy : Option String → Bool
  | none => false
  | some s => decide (s ≠ "")

/-- Row of the `comments` table as returned to the client (columns of the
SQL schema; `updated_at` is never read by the hook and is omitted). -/
structure CommentRow where
  id : String
  user_id : String
  post_id : String
  content : String
  parent_id : Option String
  likes_count : Int
  created_at : Nat
deriving DecidableEq, Repr

/-- Fields of the joined `profiles!comments_user_id_fkey` record selected
by the comments query. -/
structure ProfileJoin where
  username : Option String
  display_name : Option String
  avatar_url : Option String
  badge : Option String
deriving DecidableEq, Repr

/-- One element of `commentsData`: a comment row together with its
(possibly null) joined profile record. -/
structure JoinedCommentRow where
  id : String
  user_id : String
  post_id : String
  content : String
  parent_id : Option String
  likes_count : Int
  created_at : Nat
  profiles : Option ProfileJoin
deriving DecidableEq, Repr

/-- Client-side `Comment` shape after the transformation step of
`fetchComments` (profile fields flattened, `is_liked` computed). -/
structure Comment where
  id : String
  user_id : String
  post_id : String
  content : String
  parent_id : Option String
  likes_count : Int
  created_at : Nat
  username : Option String
  display_name : Option String
  avatar_url : Option String
  badge : Option String
  is_liked : Bool
deriving DecidableEq, Repr

/-- Root comment paired with its `replies` array, as produced by the
`commentsWithReplies` mapping in `fetchComments`. -/
structure ThreadedComment where
  comment : Comment
  replies : List Comment
deriving DecidableEq, Repr

/-- Transformation applied to each element of `commentsData`: spread the
row, flatten the optional profile fields, and set
`is_liked := userLikes.includes(comment.id)`. -/
def transformComment (userLikes : List String) (r : JoinedCommentRow) : Comment :=
  { id := r.id
    user_id := r.user_id
    post_id := r.post_id
    content := r.content
    parent_id := r.parent_id
    likes_count := r.likes_count
    created_at := r.created_at
    username := r.profiles.bind ProfileJoin.username
    display_name := r.profiles.bind ProfileJoin.display_name
    avatar_url := r.profiles.bind ProfileJoin.avatar_url
    badge := r.profiles.bind ProfileJoin.badge
    is_liked := userLikes.contains r.id }

/-- Tree construction of `fetchComments`: roots are the comments whose
`parent_id` is falsy, and each root carries the comments whose
`parent_id` strictly equals its `id` as replies. -/
def buildTree (cs : List Comment) : List ThreadedComment :=
  let rootComments := cs.filter (fun c => !optStrTruthy c.parent_id)
  rootComments.map (fun c =>
    { comment := c
      replies := cs.filter (fun r => r.parent_id == some c.id) })

/-- React state held by the `useComments` hook: the rendered comment tree
and the loading flag. -/
structure HookState where
  comments : List ThreadedComment
  loading : Bool
deriving DecidableEq, Repr

/-- List `userLikes` computed by `fetchComments`: the liked comment ids of
the current user when a session exists (with `?.map ... || []` null
handling), the empty list otherwise. -/
def userLikesOf (user : Option String) (likesResult : Option (List String)) : List String :=
  match user with
  | some _ => likesResult.getD []
  | none => []

/-- Embedding of `fetchComments`.  The outcome of the comments query is
passed in as `queryResult` and the outcome of the likes query as
`likesResult`.  Returns the new hook state together with the
`console.error` log lines.  The early return on an empty `postId`
touches nothing; the error path keeps the previous `comments` state; the
`finally` clause resets `loading` to `false` on every path that runs the
query. -/
def fetchComments (postId : String) (user : Option String)
    (queryResult : Except String (List JoinedCommentRow))
    (likesResult : Option (List String)) (st : HookState) :
    HookState × List String :=
  if postId = "" then (st, [])
  else
    match queryResult with
    | Except.error _ => ({ st with loading := false }, ["Error fetching comments:"])
    | Except.ok rows =>
      let userLikes := userLikesOf user likesResult
      let transformedComments := rows.map (transformComment userLikes)
      ({ comments := buildTree transformedComments, loading := false }, [])

/-- User-visible notifications issued through `toast`. -/
inductive Toast where
  | error (msg : String)
  | success (msg : String)
deriving DecidableEq, Repr

/-- Store operations issued through the supabase client, recorded in
order.  `refetch` stands for the trailing `await fetchComments()` of the
mutating actions. -/
inductive StoreOp where
  | insertComment (user_id post_id content : String) (parent_id : Option String)
  | selectLike (comment_id user_id : String)
  | insertLike (comment_id user_id : String)
  | deleteLike (comment_id user_id : String)
  | refetch
deriving DecidableEq, Repr

/-- Row of the `comment_likes` table.  The defaulted `id` and
`created_at` columns are never read by the hook or the trigger and are
omitted. -/
structure CommentLikeRow where
  comment_id : String
  user_id : String
deriving DecidableEq, Repr

/-- Store-side state relevant to the like toggle: the `comment_likes`
rows together with the denormalized `likes_count` column of `comments`,
read as a map from comment id to its counter. -/
structure LikesState where
  comment_likes : List CommentLikeRow
  likes_count : String → Int

/-- Literal number of like rows held for a comment. -/
def countLikes (likes : List CommentLikeRow) (cid : String) : Int :=
  ((likes.filter (fun l => l.comment_id == cid)).length : Int)

/-- Predicate of the client delete/select: the row matches the given
`comment_id` and `user_id` equality filters. -/
def matchesLike (cid uid : String) (l : CommentLikeRow) : Bool :=
  l.comment_id == cid && l.user_id == uid

/-- Existence check behind `existingLike`: some `comment_likes` row
matches `(commentId, user.id)`. -/
def hasLike (likes : List CommentLikeRow) (cid uid : String) : Bool :=
  likes.any (matchesLike cid uid)

/-- INSERT branch of the SQL trigger `update_comment_likes_count`:
increment `likes_count` of `NEW.comment_id` by one. -/
def update_comment_likes_count_ins (counts : String → Int) (new : CommentLikeRow) :
    String → Int :=
  fun c => if c = new.comment_id then counts c + 1 else counts c

/-- DELETE branch of the SQL trigger `update_comment_likes_count`:
decrement `likes_count` of `OLD.comment_id` by one, fired once per
deleted row. -/
def update_comment_likes_count_del (counts : String → Int) (old : CommentLikeRow) :
    String → Int :=
  fun c => if c = old.comment_id then counts c - 1 else counts c

/-- Effect on the store of the unlike path: delete every `comment_likes`
row matching `(cid, uid)`, the per-row delete trigger firing for each
deleted row. -/
def applyUnlike (st : LikesState) (cid uid : String) : LikesState :=
  let deleted := st.comment_likes.filter (matchesLike cid uid)
  { comment_likes := st.comment_likes.filter (fun l => !matchesLike cid uid l)
    likes_count := deleted.foldl update_comment_likes_count_del st.likes_count }

/-- Effect on the store of the like path: insert a `(cid, uid)` row, the
insert trigger firing for it. -/
def applyLike (st : LikesState) (cid uid : String) : LikesState :=
  { comment_likes := st.comment_likes ++ [{ comment_id := cid, user_id := uid }]
    likes_count := update_comment_likes_count_ins st.likes_count
      { comment_id := cid, user_id := uid } }

/-- Result of an invocation of `likeComment`: the store state with the
trigger applied, the hook comment tree, and the emitted toasts, logs and
store operations. -/
structure LikeCommentResult where
  state : LikesState
  hook : List ThreadedComment
  toasts : List Toast
  logs : List String
  ops : List StoreOp

/-- Embedding of `likeComment`.  Failure of the delete or insert store
call is passed in through `deleteFails` / `insertFails`; `refetched` is
the tree produced by the trailing `fetchComments()`, installed only on
the success path. -/
def likeComment (user : Option String) (st : LikesState) (commentId : String)
    (deleteFails insertFails : Bool)
    (hook refetched : List ThreadedComment) : LikeCommentResult :=
  match user with
  | none =>
    { state := st, hook := hook
      toasts := [Toast.error "Vous devez être connecté pour liker un commentaire"]
      logs := [], ops := [] }
  | some uid =>
    if hasLike st.comment_likes commentId uid then
      if deleteFails then
        { state := st, hook := hook, toasts := []
          logs := ["Error unliking comment:"]
          ops := [StoreOp.selectLike commentId uid, StoreOp.deleteLike commentId uid] }
      else
        { state := applyUnlike st commentId uid, hook := refetched, toasts := []
          logs := []
          ops := [StoreOp.selectLike commentId uid, StoreOp.deleteLike commentId uid,
                  StoreOp.refetch] }
    else
      if insertFails then
        { state := st, hook := hook, toasts := []
          logs := ["Error liking comment:"]
          ops := [StoreOp.selectLike commentId uid, StoreOp.insertLike commentId uid] }
      else
        { state := applyLike st commentId uid, hook := refetched, toasts := []
          logs := []
          ops := [StoreOp.selectLike commentId uid, StoreOp.insertLike commentId uid,
                  StoreOp.refetch] }

/-- State of the `comments` table seen by `createComment`. -/
structure CommentsDb where
  rows : List CommentRow
deriving DecidableEq, Repr

/-- Result of an invocation of `createComment`: the table, the value
returned to the caller (`data` or `null`), the hook comment tree, and
the emitted toasts, logs and store operations. -/
structure CreateCommentResult where
  db : CommentsDb
  ret : Option CommentRow
  hook : List ThreadedComment
  toasts : List Toast
  logs : List String
  ops : List StoreOp
deriving DecidableEq, Repr

/-- Embedding of `createComment`.  The store assigns `newId` and
`newCreatedAt` to the inserted row (`likes_count` defaults to 0) and the
row is handed back through `.select().single()`; `insertFails` is the
outcome of the insert call, and `refetched` is the tree produced by the
trailing `fetchComments()`, installed only on the success path. -/
def createComment (user : Option String) (postId content : String)
    (parentId : Option String) (db : CommentsDb)
    (insertFails : Bool) (newId : String) (newCreatedAt : Nat)
    (hook refetched : List ThreadedComment) : CreateCommentResult :=
  match user with
  | none =>
    { db := db, ret := none, hook := hook
      toasts := [Toast.error "Vous devez être connecté pour commenter"]
      logs := [], ops := [] }
  | some uid =>
    if jsTrim content = "" then
      { db := db, ret := none, hook := hook
        toasts := [Toast.error "Le commentaire ne peut pas être vide"]
        logs := [], ops := [] }
    else if insertFails then
      { db := db, ret := none, hook := hook
        toasts := [Toast.error "Erreur lors de la création du commentaire"]
        logs := ["Error creating comment:"]
        ops := [StoreOp.insertComment uid postId (jsTrim content) parentId] }
    else
      let row : CommentRow :=
        { id := newId, user_id := uid, post_id := postId
          content := jsTrim content, parent_id := parentId
          likes_count := 0, created_at := newCreatedAt }
      { db := { rows := db.rows ++ [row] }, ret := some row, hook := refetched
        toasts := [Toast.success "Commentaire ajouté avec succès"]
        logs := []
        ops := [StoreOp.insertComment uid postId (jsTrim content) parentId,
                StoreOp.refetch] }

/-- Store-side state relevant to the post comment counter: the
`comments` rows together with the denormalized `comments` column of
`posts`, read as a map from post id to its counter. -/
structure PostsState where
  comments : List CommentRow
  posts_comments : String → Int

/-- Literal number of comment rows referencing a post
(`SELECT COUNT(*) FROM comments WHERE post_id = pid`). -/
def commentsCountFor (rows : List CommentRow) (pid : String) : Int :=
  ((rows.filter (fun c => c.post_id == pid)).length : Int)

/-- Primitive operations on the `comments` table for which the trigger
`update_post_comments_count` fires: insert of a row, delete of the rows
holding a given id. -/
inductive CommentTableOp where
  | ins (row : CommentRow)
  | del (id : String)
deriving DecidableEq, Repr

/-- DELETE branch of the SQL trigger `update_post_comments_count`, fired
once per deleted row: recount the comments of `OLD.post_id` over the
post-delete table. -/
def update_post_comments_count_del (remaining : List CommentRow)
    (counts : String → Int) (old : CommentRow) : String → Int :=
  fun p => if p = old.post_id then commentsCountFor remaining old.post_id else counts p

/-- Application of one `comments`-table operation followed by its AFTER
trigger.  An insert recounts `NEW.post_id` over the table including the
new row; a delete recounts `OLD.post_id` over the remaining table, once
per deleted row. -/
def applyCommentOp (st : PostsState) : CommentTableOp → PostsState
  | CommentTableOp.ins row =>
    let rows := st.comments ++ [row]
    { comments := rows
      posts_comments := fun p =>
        if p = row.post_id then commentsCountFor rows row.post_id
        else st.posts_comments p }
  | CommentTableOp.del cid =>
    let deleted := st.comments.filter (fun c => c.id == cid)
    let remaining := st.comments.filter (fun c => !(c.id == cid))
    { comments := remaining
      posts_comments := deleted.foldl (update_post_comments_count_del remaining)
        st.posts_comments }

/-- Sequence of `comments`-table operations, each with its trigger. -/
def applyCommentOps (st : PostsState) (ops : List CommentTableOp) : PostsState :=
  ops.foldl applyCommentOp st

/-- Output of rendering a `PredictionCard`: either nothing (the `null`
early return) or a card exposing a list of interactive elements. -/
inductive RenderedCard where
  | empty
  | card (interactive : List String)
deriving DecidableEq, Repr

/-- Interactive elements exposed by a rendered card. -/
def interactiveElements : RenderedCard → List String
  | RenderedCard.empty => []
  | RenderedCard.card es => es

/-- Data of the `prediction` prop consumed by `PredictionCard` (fields
not read by the blocked-author gate are kept abstract as strings and
numbers). -/
structure Prediction where
  id : Nat
  username : String
  avatar : String
  badge : String
  matchLabel : String
  odds : String
  confidence : Nat
  analysis : String
  likes : Int
  comments : Int
  hasVideo : Bool
deriving DecidableEq, Repr

/-- Interactive elements of the non-blocked card body: profile link,
action menu, optional video transport controls, and the action row. -/
def cardInteractiveElements (p : Prediction) : List String :=
  ["profile", "menu"] ++
    (if p.hasVideo then ["play_pause", "mute", "seek", "fullscreen"] else []) ++
    ["like", "comments_sheet", "share", "details_dialog"]

/-- Embedding of the `PredictionCard` render at a given `isBlocked`
state: `if (isBlocked) return null;` and otherwise the full card. -/
def renderPredictionCard (p : Prediction) (isBlocked : Bool) : RenderedCard :=
  if isBlocked then RenderedCard.empty
  else RenderedCard.card (cardInteractiveElements p)

/-! Simple projection lemmas about the transformation step. -/

@[simp]
theorem transformComment_id (u : List String) (r : JoinedCommentRow) :
    (transformComment u r).id = r.id := rfl

@[simp]
theorem transformComment_parent_id (u : List String) (r : JoinedCommentRow) :
    (transformComment u r).parent_id = r.parent_id := rfl

@[simp]
theorem transformComment_created_at (u : List String) (r : JoinedCommentRow) :
    (transformComment u r).created_at = r.created_at := rfl

/-- Roots of the constructed tree are exactly the filter of the flat list
by the falsy-parent test, in order. -/
theorem buildTree_map_comment (cs : List Comment) :
    (buildTree cs).map ThreadedComment.comment =
      cs.filter (fun c => !optStrTruthy c.parent_id) := by
  simp [buildTree, List.map_map, Function.comp_def]

/-- C9.  For every post card whose author the current user has blocked,
the card component renders nothing and exposes no interactive
elements. -/
theorem blocked_author_renders_nothing (p : Prediction) :
    renderPredictionCard p true = RenderedCard.empty ∧
    interactiveElements (renderPredictionCard p true) = [] := by
  constructor <;> simp [renderPredictionCard, interactiveElements]

/-- C5.  An authenticated `createComment` invocation whose content trims
to the empty string issues no store operation, raises exactly the
validation toast, returns `null`, and leaves both the comments table and
the hook comment tree unchanged. -/
theorem createComment_rejects_blank_content (uid postId content : String)
    (parentId : Option String) (db : CommentsDb) (insertFails : Bool)
    (newId : String) (newCreatedAt : Nat) (hook refetched : List ThreadedComment)
    (hblank : jsTrim content = "") :
    let r := createComment (some uid) postId content parentId db insertFails
      newId newCreatedAt hook refetched
    r.ops = [] ∧ r.toasts = [Toast.error "Le commentaire ne peut pas être vide"] ∧
      r.ret = none ∧ r.db = db ∧ r.hook = hook := by
  simp [createComment, hblank]

/-- Witness for C5 at the whitespace-only content of the spec scenario. -/
theorem createComment_rejects_blank_content_witness :
    jsTrim "   " = "" ∧
    ((createComment (some "u1") "p1" "   " none { rows := [] } false
        "id1" 5 [] []).ops = [] ∧
      (createComment (some "u1") "p1" "   " none { rows := [] } false
        "id1" 5 [] []).toasts = [Toast.error "Le commentaire ne peut pas être vide"] ∧
      (createComment (some "u1") "p1" "   " none { rows := [] } false
        "id1" 5 [] []).ret = none ∧
      (createComment (some "u1") "p1" "   " none { rows := [] } false
        "id1" 5 [] []).db = { rows := [] } ∧
      (createComment (some "u1") "p1" "   " none { rows := [] } false
        "id1" 5 [] []).hook = []) :=
  ⟨by decide,
    createComment_rejects_blank_content "u1" "p1" "   " none { rows := [] } false
      "id1" 5 [] [] (by decide)⟩

/-- C6.  Without an authenticated user, `createComment` and `likeComment`
issue no store operation, raise exactly the auth toast, and leave the
store and the hook comment tree unchanged (`createComment` returns
`null`). -/
theorem unauthenticated_mutations_short_circuit (postId content : String)
    (parentId : Option String) (db : CommentsDb) (insertFails : Bool)
    (newId : String) (newCreatedAt : Nat) (hook refetched : List ThreadedComment)
    (st : LikesState) (cid : String) (deleteFails insertFailsLike : Bool)
    (hook2 refetched2 : List ThreadedComment) :
    (let r := createComment none postId content parentId db insertFails
        newId newCreatedAt hook refetched
     r.ops = [] ∧ r.toasts = [Toast.error "Vous devez être connecté pour commenter"] ∧
       r.ret = none ∧ r.db = db ∧ r.hook = hook) ∧
    (let r := likeComment none st cid deleteFails insertFailsLike hook2 refetched2
     r.ops = [] ∧
       r.toasts = [Toast.error "Vous devez être connecté pour liker un commentaire"] ∧
       r.state = st ∧ r.hook = hook2) := by
  constructor <;> simp [createComment, likeComment]

/-- C7.  When the comments query fails, `fetchComments` logs the error,
returns normally (no exception is modeled: the function is total),
leaves the previously held comment tree unchanged, and resets the
loading flag to `false`. -/
theorem fetchComments_query_failure_soft (postId : String) (user : Option String)
    (e : String) (likesResult : Option (List String)) (st : HookState)
    (hpost : postId ≠ "") :
    fetchComments postId user (Except.error e) likesResult st =
      ({ comments := st.comments, loading := false }, ["Error fetching comments:"]) := by
  simp [fetchComments, hpost]

/-- Witness for C7 at a concrete failing query. -/
theorem fetchComments_query_failure_soft_witness :
    ("p1" : String) ≠ "" ∧
    fetchComments "p1" none (Except.error "boom") none
        { comments := [], loading := true } =
      ({ comments := [], loading := false }, ["Error fetching comments:"]) :=
  ⟨by decide,
    fetchComments_query_failure_soft "p1" none "boom" none
      { comments := [], loading := true } (by decide)⟩

/-- C10.  A successful authenticated `createComment` stores the trimmed
content: the inserted row (appended to the table and returned to the
caller) carries `jsTrim content`, and the insert payload sent to the
store does too. -/
theorem createComment_inserts_trimmed_content (uid postId content : String)
    (parentId : Option String) (db : CommentsDb)
    (newId : String) (newCreatedAt : Nat) (hook refetched : List ThreadedComment)
    (hne : jsTrim content ≠ "") :
    let row : CommentRow :=
      { id := newId, user_id := uid, post_id := postId
        content := jsTrim content, parent_id := parentId
        likes_count := 0, created_at := newCreatedAt }
    let r := createComment (some uid) postId content parentId db false
      newId newCreatedAt hook refetched
    r.ret = some row ∧ r.db.rows = db.rows ++ [row] ∧
      r.ops = [StoreOp.insertComment uid postId (jsTrim content) parentId,
               StoreOp.refetch] := by
  simp [createComment, hne]

/-- Concrete row used by the C10 witness: what the store hands back for
the trimmed insert of content " nice pick ". -/
def nicePickRow : CommentRow :=
  { id := "id1", user_id := "u1", post_id := "p1"
    content := jsTrim " nice pick ", parent_id := none
    likes_count := 0, created_at := 7 }

/-- Witness for C10 at content carrying surrounding whitespace. -/
theorem createComment_inserts_trimmed_content_witness :
    jsTrim " nice pick " ≠ "" ∧
    ((createComment (some "u1") "p1" " nice pick " none { rows := [] } false
        "id1" 7 [] []).ret = some nicePickRow ∧
      (createComment (some "u1") "p1" " nice pick " none { rows := [] } false
        "id1" 7 [] []).db.rows = List.append [] [nicePickRow] ∧
      (createComment (some "u1") "p1" " nice pick " none { rows := [] } false
        "id1" 7 [] []).ops =
        [StoreOp.insertComment "u1" "p1" (jsTrim " nice pick ") none,
         StoreOp.refetch]) :=
  ⟨by decide,
    createComment_inserts_trimmed_content "u1" "p1" " nice pick " none { rows := [] }
      "id1" 7 [] [] (by decide)⟩

/-- Ascending creation-time order on query rows (the order produced by
the comments query). -/
def rowByCreatedAt (a b : JoinedCommentRow) : Prop := a.created_at ≤ b.created_at

instance : DecidableRel rowByCreatedAt := fun a b =>
  inferInstanceAs (Decidable (a.created_at ≤ b.created_at))

/-- Ascending creation-time order on transformed comments. -/
def byCreatedAt (a b : Comment) : Prop := a.created_at ≤ b.created_at

instance : DecidableRel byCreatedAt := fun a b =>
  inferInstanceAs (Decidable (a.created_at ≤ b.created_at))

/-- Schema well-formedness of a query row: a non-null `parent_id` column
holds a UUID, never the empty string. -/
def parentNotEmpty (r : JoinedCommentRow) : Bool := r.parent_id != some ""

/-- Schema well-formedness of a query row: the `id` column holds a UUID,
never the empty string. -/
def idNotEmpty (r : JoinedCommentRow) : Bool := r.id != ""

/-- C1.  On a successful query, the tree produced by `fetchComments` has
exactly the comments with a null parent as roots (in query order), and
each root carries exactly the comments whose `parent_id` equals its id
as replies; when the query result is ordered by ascending creation time
(as the underlying query orders it), so is every reply list. -/
theorem fetchComments_tree_roots_and_replies (postId : String) (user : Option String)
    (rows : List JoinedCommentRow) (likesResult : Option (List String)) (st : HookState)
    (hpost : postId ≠ "")
    (hsorted : rows.Pairwise rowByCreatedAt)
    (hwf : rows.all parentNotEmpty = true) :
    ((fetchComments postId user (Except.ok rows) likesResult st).1.comments).map
        ThreadedComment.comment =
      (rows.map (transformComment (userLikesOf user likesResult))).filter
        (fun c => c.parent_id == none) ∧
    ∀ t ∈ (fetchComments postId user (Except.ok rows) likesResult st).1.comments,
      t.replies = (rows.map (transformComment (userLikesOf user likesResult))).filter
          (fun c => c.parent_id == some t.comment.id) ∧
      t.replies.Pairwise byCreatedAt := by
  have hfetch : (fetchComments postId user (Except.ok rows) likesResult st).1.comments
      = buildTree (rows.map (transformComment (userLikesOf user likesResult))) := by
    simp [fetchComments, hpost]
  rw [hfetch]
  set cs := rows.map (transformComment (userLikesOf user likesResult)) with hcs
  have hcssorted : cs.Pairwise byCreatedAt := by
    rw [hcs, List.pairwise_map]
    exact hsorted.imp (fun h => h)
  constructor
  · rw [buildTree_map_comment]
    apply List.filter_congr
    intro c hc
    rcases List.mem_map.mp hc with ⟨r, hr, rfl⟩
    rw [transformComment_parent_id]
    cases hp : r.parent_id with
    | none => simp [optStrTruthy]
    | some p =>
      have hall := List.all_eq_true.mp hwf r hr
      have hne : p ≠ "" := by
        intro he
        simp [parentNotEmpty, hp, he] at hall
      simp [optStrTruthy, hne]
  · intro t ht
    simp only [buildTree] at ht
    rcases List.mem_map.mp ht with ⟨r, hrmem, rfl⟩
    refine ⟨rfl, ?_⟩
    exact hcssorted.filter _

/-- C3.  A comment whose `parent_id` references a non-root comment (a
reply to a reply) appears neither among the roots of the tree produced
by `fetchComments` nor in any root reply list: it is dropped from the
output. -/
theorem fetchComments_drops_reply_to_reply (postId : String) (user : Option String)
    (rows : List JoinedCommentRow) (likesResult : Option (List String)) (st : HookState)
    (hpost : postId ≠ "")
    (hids : (rows.map JoinedCommentRow.id).Nodup)
    (hidne : rows.all idNotEmpty = true)
    (c q : JoinedCommentRow) (_hc : c ∈ rows) (hq : q ∈ rows)
    (hcp : c.parent_id = some q.id)
    (hqnonroot : optStrTruthy q.parent_id = true) :
    transformComment (userLikesOf user likesResult) c ∉
      ((fetchComments postId user (Except.ok rows) likesResult st).1.comments).map
        ThreadedComment.comment ∧
    ∀ t ∈ (fetchComments postId user (Except.ok rows) likesResult st).1.comments,
      transformComment (userLikesOf user likesResult) c ∉ t.replies := by
  have hfetch : (fetchComments postId user (Except.ok rows) likesResult st).1.comments
      = buildTree (rows.map (transformComment (userLikesOf user likesResult))) := by
    simp [fetchComments, hpost]
  rw [hfetch]
  set u := userLikesOf user likesResult with hu
  constructor
  · rw [buildTree_map_comment]
    intro hmem
    have hroot := (List.mem_filter.mp hmem).2
    rw [transformComment_parent_id, hcp] at hroot
    have hqid : q.id ≠ "" := by
      have := List.all_eq_true.mp hidne q hq
      simpa [idNotEmpty] using this
    simp [optStrTruthy, hqid] at hroot
  · intro t ht hmem
    simp only [buildTree] at ht
    rcases List.mem_map.mp ht with ⟨r, hrmem, rfl⟩
    have hrroot := (List.mem_filter.mp hrmem).2
    have hrcs := (List.mem_filter.mp hrmem).1
    rcases List.mem_map.mp hrcs with ⟨r2, hr2, hr2eq⟩
    have hpred := (List.mem_filter.mp hmem).2
    rw [transformComment_parent_id, hcp] at hpred
    have hqr : q.id = r.id := by simpa using hpred
    have hrid : r.id = r2.id := by rw [← hr2eq]; rfl
    have hq2 : q = r2 :=
      List.inj_on_of_nodup_map hids hq hr2 (by rw [hqr, hrid])
    have hrparent : r.parent_id = q.parent_id := by
      rw [← hr2eq, transformComment_parent_id, ← hq2]
    rw [hrparent, hqnonroot] at hrroot
    simp at hrroot

/-- Sample root comment row used by witnesses. -/
def rowA : JoinedCommentRow :=
  { id := "a", user_id := "u1", post_id := "p1", content := "hello"
    parent_id := none, likes_count := 0, created_at := 1, profiles := none }

/-- Sample reply row (child of `rowA`) used by witnesses. -/
def rowB : JoinedCommentRow :=
  { id := "b", user_id := "u2", post_id := "p1", content := "reply"
    parent_id := some "a", likes_count := 0, created_at := 2, profiles := none }

/-- Sample reply-to-reply row (child of `rowB`) used by witnesses. -/
def rowC : JoinedCommentRow :=
  { id := "c", user_id := "u3", post_id := "p1", content := "deep"
    parent_id := some "b", likes_count := 0, created_at := 3, profiles := none }

/-- Witness for C1 at a two-row fetch: the root list of the produced tree
is exactly the transformed root row. -/
theorem fetchComments_tree_roots_and_replies_witness :
    ("p1" : String) ≠ "" ∧
    [rowA, rowB].Pairwise rowByCreatedAt ∧
    [rowA, rowB].all parentNotEmpty = true ∧
    ((fetchComments "p1" none (Except.ok [rowA, rowB]) none
        { comments := [], loading := true }).1.comments).map ThreadedComment.comment
      = [transformComment (userLikesOf none none) rowA] :=
  ⟨by decide, by decide, by decide, by
    rw [(fetchComments_tree_roots_and_replies "p1" none [rowA, rowB] none
      { comments := [], loading := true } (by decide) (by decide) (by decide)).1]
    decide⟩

/-- Witness for C3 at a three-row fetch: the transformed reply-to-reply
row `rowC` is not among the roots of the produced tree. -/
theorem fetchComments_drops_reply_to_reply_witness :
    ("p1" : String) ≠ "" ∧
    ([rowA, rowB, rowC].map JoinedCommentRow.id).Nodup ∧
    [rowA, rowB, rowC].all idNotEmpty = true ∧
    rowC ∈ [rowA, rowB, rowC] ∧
    rowB ∈ [rowA, rowB, rowC] ∧
    rowC.parent_id = some rowB.id ∧
    optStrTruthy rowB.parent_id = true ∧
    transformComment (userLikesOf none none) rowC ∉
      ((fetchComments "p1" none (Except.ok [rowA, rowB, rowC]) none
        { comments := [], loading := true }).1.comments).map ThreadedComment.comment :=
  ⟨by decide, by decide, by decide, by decide, by decide, by decide, by decide,
    (fetchComments_drops_reply_to_reply "p1" none [rowA, rowB, rowC] none
      { comments := [], loading := true } (by decide) (by decide) (by decide)
      rowC rowB (by decide) (by decide) (by decide) (by decide)).1⟩

/-! Lemmas for the like-toggle law. -/

/-- Splitting a filtered length along a second predicate. -/
theorem length_filter_filter_add {α : Type} (l : List α) (m q : α → Bool) :
    ((l.filter m).filter q).length + ((l.filter (fun x => !m x)).filter q).length
      = (l.filter q).length := by
  induction l with
  | nil => simp
  | cons x xs ih =>
    cases hm : m x <;> cases hq : q x <;>
      simp [List.filter_cons, hm, hq, -List.filter_filter] <;> omega

/-- A freshly inserted like row is found by the existence check. -/
theorem hasLike_applyLike_self (st : LikesState) (cid uid : String) :
    hasLike (applyLike st cid uid).comment_likes cid uid = true := by
  simp [hasLike, applyLike, List.any_append, matchesLike]

/-- After the delete, no like row of the pair is left. -/
theorem hasLike_applyUnlike_self (st : LikesState) (cid uid : String) :
    hasLike (applyUnlike st cid uid).comment_likes cid uid = false := by
  rw [Bool.eq_false_iff]
  intro hany
  rcases List.any_eq_true.mp hany with ⟨x, hx, hmx⟩
  have := (List.mem_filter.mp hx).2
  rw [hmx] at this
  simp at this

/-- Folding the per-row delete trigger over rows that all reference the
same comment subtracts their number from that counter. -/
theorem foldl_del_counts (ds : List CommentLikeRow) (counts : String → Int)
    (cid : String) (h : ∀ d ∈ ds, d.comment_id = cid) :
    (ds.foldl update_comment_likes_count_del counts) cid
      = counts cid - ds.length := by
  induction ds generalizing counts with
  | nil => simp
  | cons d ds ih =>
    have hd : d.comment_id = cid := h d (by simp)
    rw [List.foldl_cons, ih _ (fun x hx => h x (by simp [hx]))]
    simp only [update_comment_likes_count_del, hd, if_pos rfl, List.length_cons]
    push_cast
    ring

/-- Counter effect of the unlike path at the toggled comment. -/
theorem likes_count_applyUnlike (st : LikesState) (cid uid : String) :
    (applyUnlike st cid uid).likes_count cid
      = st.likes_count cid - (st.comment_likes.filter (matchesLike cid uid)).length := by
  apply foldl_del_counts
  intro d hd
  have := (List.mem_filter.mp hd).2
  simp [matchesLike] at this
  exact this.1

/-- Row-count effect of the unlike path at the toggled comment. -/
theorem countLikes_applyUnlike (st : LikesState) (cid uid : String) :
    countLikes (applyUnlike st cid uid).comment_likes cid
      = countLikes st.comment_likes cid
        - (st.comment_likes.filter (matchesLike cid uid)).length := by
  have h1 : (st.comment_likes.filter (matchesLike cid uid)).filter
      (fun l => l.comment_id == cid) = st.comment_likes.filter (matchesLike cid uid) := by
    apply List.filter_eq_self.mpr
    intro x hx
    have := (List.mem_filter.mp hx).2
    simp [matchesLike] at this
    simp [this.1]
  have h2 := length_filter_filter_add st.comment_likes (matchesLike cid uid)
    (fun l => l.comment_id == cid)
  rw [h1] at h2
  simp only [countLikes, applyUnlike]
  omega

/-- Counter effect of the like path at the toggled comment. -/
theorem likes_count_applyLike (st : LikesState) (cid uid : String) :
    (applyLike st cid uid).likes_count cid = st.likes_count cid + 1 := by
  simp [applyLike, update_comment_likes_count_ins]

/-- Row-count effect of the like path at the toggled comment. -/
theorem countLikes_applyLike (st : LikesState) (cid uid : String) :
    countLikes (applyLike st cid uid).comment_likes cid
      = countLikes st.comment_likes cid + 1 := by
  simp [countLikes, applyLike, List.filter_append]

/-- The unlike path preserves the counter invariant at the toggled
comment. -/
theorem inv_applyUnlike (st : LikesState) (cid uid : String)
    (h : st.likes_count cid = countLikes st.comment_likes cid) :
    (applyUnlike st cid uid).likes_count cid
      = countLikes (applyUnlike st cid uid).comment_likes cid := by
  rw [likes_count_applyUnlike, countLikes_applyUnlike, h]

/-- The like path preserves the counter invariant at the toggled
comment. -/
theorem inv_applyLike (st : LikesState) (cid uid : String)
    (h : st.likes_count cid = countLikes st.comment_likes cid) :
    (applyLike st cid uid).likes_count cid
      = countLikes (applyLike st cid uid).comment_likes cid := by
  rw [likes_count_applyLike, countLikes_applyLike, h]

/-- C2.  Toggle law: two successive successful `likeComment` invocations
for the same (user, comment) return the like-row state to its original
value (row absent stays absent, row present stays present), and with the
likes-count trigger applied the denormalized `likes_count` of that
comment equals the literal count of its like rows both before (the
hypothesis, restated) and after. -/
theorem likeComment_double_toggle (st : LikesState) (uid cid : String)
    (hook1 refetched1 hook2 refetched2 : List ThreadedComment)
    (hinv : st.likes_count cid = countLikes st.comment_likes cid) :
    hasLike ((likeComment (some uid)
        ((likeComment (some uid) st cid false false hook1 refetched1).state)
        cid false false hook2 refetched2).state).comment_likes cid uid
      = hasLike st.comment_likes cid uid ∧
    ((likeComment (some uid)
        ((likeComment (some uid) st cid false false hook1 refetched1).state)
        cid false false hook2 refetched2).state).likes_count cid
      = countLikes ((likeComment (some uid)
          ((likeComment (some uid) st cid false false hook1 refetched1).state)
          cid false false hook2 refetched2).state).comment_likes cid ∧
    st.likes_count cid = countLikes st.comment_likes cid := by
  cases h : hasLike st.comment_likes cid uid with
  | true =>
    have hst1 : (likeComment (some uid) st cid false false hook1 refetched1).state
        = applyUnlike st cid uid := by
      simp [likeComment, h]
    have hst2 : (likeComment (some uid) (applyUnlike st cid uid) cid false false
        hook2 refetched2).state = applyLike (applyUnlike st cid uid) cid uid := by
      simp [likeComment, hasLike_applyUnlike_self]
    rw [hst1, hst2]
    exact ⟨hasLike_applyLike_self _ cid uid,
      inv_applyLike _ cid uid (inv_applyUnlike st cid uid hinv), hinv⟩
  | false =>
    have hst1 : (likeComment (some uid) st cid false false hook1 refetched1).state
        = applyLike st cid uid := by
      simp [likeComment, h]
    have hst2 : (likeComment (some uid) (applyLike st cid uid) cid false false
        hook2 refetched2).state = applyUnlike (applyLike st cid uid) cid uid := by
      simp [likeComment, hasLike_applyLike_self]
    rw [hst1, hst2]
    exact ⟨hasLike_applyUnlike_self _ cid uid,
      inv_applyUnlike _ cid uid (inv_applyLike st cid uid hinv), hinv⟩

/-- Empty like store with every counter at zero, used by witnesses. -/
def emptyLikesState : LikesState :=
  { comment_likes := [], likes_count := fun _ => 0 }

/-- Witness for C2 at the empty consistent store. -/
theorem likeComment_double_toggle_witness :
    emptyLikesState.likes_count "c1" = countLikes emptyLikesState.comment_likes "c1" ∧
    (hasLike ((likeComment (some "u1")
        ((likeComment (some "u1") emptyLikesState "c1" false false [] []).state)
        "c1" false false [] []).state).comment_likes "c1" "u1"
      = hasLike emptyLikesState.comment_likes "c1" "u1" ∧
    ((likeComment (some "u1")
        ((likeComment (some "u1") emptyLikesState "c1" false false [] []).state)
        "c1" false false [] []).state).likes_count "c1"
      = countLikes ((likeComment (some "u1")
          ((likeComment (some "u1") emptyLikesState "c1" false false [] []).state)
          "c1" false false [] []).state).comment_likes "c1" ∧
    emptyLikesState.likes_count "c1" = countLikes emptyLikesState.comment_likes "c1") :=
  ⟨rfl, likeComment_double_toggle emptyLikesState "u1" "c1" [] [] [] [] rfl⟩

/-! Lemmas for the post comment-counter law. -/

/-- Folding the per-row delete trigger: a post touched by a deleted row
ends at the exact recount over the remaining table; any other post keeps
its counter. -/
theorem foldl_post_del_counts (ds : List CommentRow) (remaining : List CommentRow)
    (counts : String → Int) (p : String) :
    (ds.foldl (update_post_comments_count_del remaining) counts) p
      = if ds.any (fun d => d.post_id == p) then commentsCountFor remaining p
        else counts p := by
  induction ds generalizing counts with
  | nil => simp
  | cons d ds ih =>
    rw [List.foldl_cons, ih]
    simp only [List.any_cons, update_post_comments_count_del]
    by_cases hd : d.post_id = p
    · simp [hd]
    · have hd2 : ¬ p = d.post_id := fun h2 => hd h2.symm
      simp [beq_iff_eq, hd, hd2]

/-- One `comments`-table operation with its trigger preserves the
counter invariant at any given post. -/
theorem applyCommentOp_preserves (st : PostsState) (p : String) (op : CommentTableOp)
    (h : st.posts_comments p = commentsCountFor st.comments p) :
    (applyCommentOp st op).posts_comments p
      = commentsCountFor (applyCommentOp st op).comments p := by
  cases op with
  | ins row =>
    simp only [applyCommentOp]
    by_cases hp : p = row.post_id
    · simp [hp]
    · rw [if_neg hp, h]
      simp only [commentsCountFor, List.filter_append]
      have hrow : [row].filter (fun c => c.post_id == p) = [] := by
        simp [beq_iff_eq]
        exact fun h2 => hp h2.symm
      rw [hrow, List.append_nil]
  | del cid =>
    simp only [applyCommentOp]
    rw [foldl_post_del_counts]
    by_cases hany : (st.comments.filter (fun c => c.id == cid)).any
        (fun d => d.post_id == p) = true
    · rw [if_pos hany]
    · rw [if_neg hany, h]
      have hdel : (st.comments.filter (fun c => c.id == cid)).filter
          (fun c => c.post_id == p) = [] := by
        rw [List.filter_eq_nil_iff]
        intro d hd hq
        exact hany (List.any_eq_true.mpr ⟨d, hd, hq⟩)
      have hsplit := length_filter_filter_add st.comments (fun c => c.id == cid)
        (fun c => c.post_id == p)
      rw [hdel] at hsplit
      simp only [List.length_nil, Nat.zero_add] at hsplit
      simp only [commentsCountFor]
      omega

/-- C4.  After any sequence of comment inserts and deletes on a post,
with the per-row comment-count trigger applied after each operation, the
post's denormalized comment counter equals the exact count of comment
rows referencing that post (given it did so initially, as on a fresh
table). -/
theorem post_comments_counter_law (st : PostsState) (ops : List CommentTableOp)
    (p : String)
    (hinit : st.posts_comments p = commentsCountFor st.comments p) :
    (applyCommentOps st ops).posts_comments p
      = commentsCountFor (applyCommentOps st ops).comments p := by
  induction ops generalizing st with
  | nil => simpa [applyCommentOps] using hinit
  | cons op ops ih =>
    have hstep := applyCommentOp_preserves st p op hinit
    simpa [applyCommentOps, List.foldl_cons] using ih (applyCommentOp st op) hstep

/-- Empty posts store with every counter at zero, used by witnesses. -/
def emptyPostsState : PostsState :=
  { comments := [], posts_comments := fun _ => 0 }

/-- Sample comment row on post p1, used by witnesses. -/
def sampleCommentA : CommentRow :=
  { id := "a", user_id := "u1", post_id := "p1", content := "x"
    parent_id := none, likes_count := 0, created_at := 1 }

/-- Second sample comment row on post p1, used by witnesses. -/
def sampleCommentB : CommentRow :=
  { id := "b", user_id := "u2", post_id := "p1", content := "y"
    parent_id := some "a", likes_count := 0, created_at := 2 }

/-- Witness for C4: two inserts followed by one delete on a fresh table
leave the counter of p1 at the exact remaining row count. -/
theorem post_comments_counter_law_witness :
    emptyPostsState.posts_comments "p1" = commentsCountFor emptyPostsState.comments "p1" ∧
    (applyCommentOps emptyPostsState
        [CommentTableOp.ins sampleCommentA, CommentTableOp.ins sampleCommentB,
         CommentTableOp.del "a"]).posts_comments "p1"
      = commentsCountFor (applyCommentOps emptyPostsState
          [CommentTableOp.ins sampleCommentA, CommentTableOp.ins sampleCommentB,
           CommentTableOp.del "a"]).comments "p1" :=
  ⟨rfl, post_comments_counter_law emptyPostsState
    [CommentTableOp.ins sampleCommentA, CommentTableOp.ins sampleCommentB,
     CommentTableOp.del "a"] "p1" rfl⟩

/-- Like store holding exactly the (c1, u1) row with its counter at one,
used for the C8 counterexample and witness. -/
def oneLikeState : LikesState :=
  { comment_likes := [{ comment_id := "c1", user_id := "u1" }]
    likes_count := fun _ => 1 }

/-- Counterexample to C8 as stated: a rejected like delete in
`likeComment` (the delete operation was issued and failed) is logged but
produces no toast at all, so no generic localized message reaches the
user. -/
theorem likeComment_failure_silent_cex :
    (likeComment (some "u1") oneLikeState "c1" true false [] []).ops
      = [StoreOp.selectLike "c1" "u1", StoreOp.deleteLike "c1" "u1"] ∧
    (likeComment (some "u1") oneLikeState "c1" true false [] []).logs
      = ["Error unliking comment:"] ∧
    (likeComment (some "u1") oneLikeState "c1" true false [] []).toasts = [] := by
  decide

/-- C8 (amended).  Every store mutation failure is logged and aborts the
operation with no partial state applied; the rejected comment insert in
`createComment` is additionally surfaced as a generic localized toast
and yields a null result, while a rejected like insert or delete in
`likeComment` produces no user-facing message. -/
theorem store_mutation_failure_handling (uid postId content : String)
    (parentId : Option String) (db : CommentsDb)
    (newId : String) (newCreatedAt : Nat) (hook refetched : List ThreadedComment)
    (st : LikesState) (cid : String) (hook2 refetched2 : List ThreadedComment)
    (hne : jsTrim content ≠ "") :
    ((createComment (some uid) postId content parentId db true newId newCreatedAt
        hook refetched).ret = none ∧
      (createComment (some uid) postId content parentId db true newId newCreatedAt
        hook refetched).toasts
        = [Toast.error "Erreur lors de la création du commentaire"] ∧
      (createComment (some uid) postId content parentId db true newId newCreatedAt
        hook refetched).logs = ["Error creating comment:"] ∧
      (createComment (some uid) postId content parentId db true newId newCreatedAt
        hook refetched).db = db ∧
      (createComment (some uid) postId content parentId db true newId newCreatedAt
        hook refetched).hook = hook) ∧
    (hasLike st.comment_likes cid uid = true →
      (likeComment (some uid) st cid true false hook2 refetched2).state = st ∧
      (likeComment (some uid) st cid true false hook2 refetched2).toasts = [] ∧
      (likeComment (some uid) st cid true false hook2 refetched2).logs
        = ["Error unliking comment:"] ∧
      (likeComment (some uid) st cid true false hook2 refetched2).hook = hook2) ∧
    (hasLike st.comment_likes cid uid = false →
      (likeComment (some uid) st cid false true hook2 refetched2).state = st ∧
      (likeComment (some uid) st cid false true hook2 refetched2).toasts = [] ∧
      (likeComment (some uid) st cid false true hook2 refetched2).logs
        = ["Error liking comment:"] ∧
      (likeComment (some uid) st cid false true hook2 refetched2).hook = hook2) := by
  refine ⟨?_, ?_, ?_⟩
  · simp [createComment, hne]
  · intro h
    simp [likeComment, h]
  · intro h
    simp [likeComment, h]

/-- Witness for C8 (amended) at a concrete failing insert and failing
unlike. -/
theorem store_mutation_failure_handling_witness :
    jsTrim "hello" ≠ "" ∧
    (((createComment (some "u1") "p1" "hello" none { rows := [] } true "id1" 5
        [] []).ret = none ∧
      (createComment (some "u1") "p1" "hello" none { rows := [] } true "id1" 5
        [] []).toasts = [Toast.error "Erreur lors de la création du commentaire"] ∧
      (createComment (some "u1") "p1" "hello" none { rows := [] } true "id1" 5
        [] []).logs = ["Error creating comment:"] ∧
      (createComment (some "u1") "p1" "hello" none { rows := [] } true "id1" 5
        [] []).db = { rows := [] } ∧
      (createComment (some "u1") "p1" "hello" none { rows := [] } true "id1" 5
        [] []).hook = []) ∧
    (hasLike oneLikeState.comment_likes "c1" "u1" = true →
      (likeComment (some "u1") oneLikeState "c1" true false [] []).state
        = oneLikeState ∧
      (likeComment (some "u1") oneLikeState "c1" true false [] []).toasts = [] ∧
      (likeComment (some "u1") oneLikeState "c1" true false [] []).logs
        = ["Error unliking comment:"] ∧
      (likeComment (some "u1") oneLikeState "c1" true false [] []).hook = []) ∧
    (hasLike oneLikeState.comment_likes "c1" "u1" = false →
      (likeComment (some "u1") oneLikeState "c1" false true [] []).state
        = oneLikeState ∧
      (likeComment (some "u1") oneLikeState "c1" false true [] []).toasts = [] ∧
      (likeComment (some "u1") oneLikeState "c1" false true [] []).logs
        = ["Error liking comment:"] ∧
      (likeComment (some "u1") oneLikeState "c1" false true [] []).hook = [])) :=
  ⟨by decide,
    store_mutation_failure_handling "u1" "p1" "hello" none { rows := [] } "id1" 5
      [] [] oneLikeState "c1" [] [] (by decide)⟩
